import Mathlib

/-
Verification of the CSV bank-statement ingestion and transaction-classification
pipeline of the personal-finance web client (src/app/dashboard/transactions/page.tsx).

The TypeScript functions are shallowly embedded: JS strings are Lean `String`
(ASCII semantics for case mapping), JS numbers carrying money amounts are `ℚ`,
nullable values are `Option`, and the stateful import loop is explicit state
passing over a `ProcState` record.  Backend REST calls are modelled as explicit
response functions passed in as parameters, with every issued write request
recorded.
-/

namespace Preview

/-! ## JS string primitives (ASCII model) -/

/-- JS `String.prototype.toLowerCase` restricted to ASCII: lower-case every
character.  The source only compares ASCII merchant names and keywords. -/
def lowerStr (s : String) : String :=
  ⟨s.toList.map Char.toLower⟩

/-- JS `String.prototype.includes`: `sub` occurs as a contiguous substring. -/
def strIncludes (s sub : String) : Bool :=
  s.toList.tails.any (fun t => sub.toList.isPrefixOf t)

/-- JS whitespace class `\s` (the ASCII members, which are the ones that occur
in bank CSV exports). -/
def isSpaceJS (c : Char) : Bool :=
  c = ' ' || c = '\t' || c = '\n' || c = '\r' || c = '\x0b' || c = '\x0c'

/-- Strip leading JS whitespace from a character list. -/
def dropLeadingWs (cs : List Char) : List Char :=
  cs.dropWhile isSpaceJS

/-- JS `String.prototype.trim` on a character list: drop whitespace on both ends. -/
def trimChars (cs : List Char) : List Char :=
  ((cs.dropWhile isSpaceJS).reverse.dropWhile isSpaceJS).reverse

/-- JS `String.prototype.trim`. -/
def trimStr (s : String) : String :=
  ⟨trimChars s.toList⟩

/-- JS `String.prototype.padStart(2, "0")`. -/
def padStart2 (s : String) : String :=
  if 2 ≤ s.length then s
  else if s.length = 1 then "0" ++ s
  else "00"

/-- JS `String.prototype.split(sep)` for a one-character separator, on
character lists; an empty input gives one empty field, like in JS. -/
def splitOnChar (sep : Char) : List Char → List (List Char)
  | [] => [[]]
  | c :: rest =>
    if c = sep then [] :: splitOnChar sep rest
    else
      match splitOnChar sep rest with
      | g :: gs => (c :: g) :: gs
      | [] => [[c]]

/-- JS `String.prototype.split(sep)` for a one-character separator. -/
def strSplitChar (sep : Char) (s : String) : List String :=
  (splitOnChar sep s.toList).map (fun g => ⟨g⟩)

/-- Value of a list of decimal digit characters. -/
def digitsToNat (ds : List Char) : Nat :=
  ds.foldl (fun n c => n * 10 + (c.toNat - 48)) 0

/-- Powers of ten, kept structural so that the kernel can evaluate them. -/
def pow10 : Nat → Nat
  | 0 => 1
  | n + 1 => 10 * pow10 n

/-- Leading decimal-digit run of a character list, as a number; `none` when the
list does not start with a digit. -/
def digitsPfxNat (cs : List Char) : Option Nat :=
  let ds := cs.takeWhile Char.isDigit
  if ds = [] then none else some (digitsToNat ds)

/-- JS `parseInt(s)` (radix 10): skip leading whitespace, optional sign, then a
non-empty digit run; `none` models `NaN`. -/
def jsParseIntOpt (s : String) : Option Int :=
  match dropLeadingWs s.toList with
  | '-' :: r => (digitsPfxNat r).map (fun n => -(n : Int))
  | '+' :: r => (digitsPfxNat r).map (fun n => (n : Int))
  | r => (digitsPfxNat r).map (fun n => (n : Int))

/-- Exponent suffix of a JS float literal (the part after `e`/`E`): optional
sign then a non-empty digit run; `none` when no digits follow (in which case
`parseFloat` does not consume the `e`). -/
def jsExpPart : List Char → Option Int
  | '-' :: r => (digitsPfxNat r).map (fun n => -(n : Int))
  | '+' :: r => (digitsPfxNat r).map (fun n => (n : Int))
  | r => (digitsPfxNat r).map (fun n => (n : Int))

/-- JS `parseFloat(s)`, modelled over `ℚ`: skip leading whitespace, optional
sign, integer digits, optional fraction, optional exponent; the longest valid
numeric front is parsed and trailing garbage is ignored.  `none` models `NaN`
(no digits at all).  Non-finite literals (`Infinity`) are outside the model;
they do not occur in bank amount fields. -/
def jsParseFloat (s : String) : Option ℚ :=
  let cs0 := dropLeadingWs s.toList
  let isNeg : Bool := match cs0 with | '-' :: _ => true | _ => false
  let cs1 := match cs0 with | '-' :: r => r | '+' :: r => r | r => r
  let ip := cs1.takeWhile Char.isDigit
  let cs2 := cs1.drop ip.length
  let fp := match cs2 with | '.' :: r => r.takeWhile Char.isDigit | _ => []
  let cs3 := match cs2 with
    | '.' :: r => r.drop (r.takeWhile Char.isDigit).length
    | r => r
  if ip = [] ∧ fp = [] then none
  else
    let ex : Int := match cs3 with
      | 'e' :: r => (jsExpPart r).getD 0
      | 'E' :: r => (jsExpPart r).getD 0
      | _ => 0
    -- value = sign · digits · 10^ex / 10^(number of fraction digits), assembled
    -- through `mkRat` on integers (Int.toNat of a negative exponent is 0)
    let mag : Int := (digitsToNat (ip ++ fp) : Int) * (pow10 ex.toNat : Int)
    let num : Int := if isNeg then -mag else mag
    let den : Nat := pow10 fp.length * pow10 (if 0 ≤ ex then 0 else (-ex).toNat)
    some (mkRat num den)

/-! ## CSV line parser (source: `parseCSVLine`) -/

/-- Loop body of `parseCSVLine`: `current` is the field being accumulated,
`result` the fields already emitted, `inQuotes` the quote mode.  A `"` toggles
quote mode and is dropped; a `,` outside quotes emits the trimmed current
field; any other character is appended to the current field. -/
def parseCSVLineGo : List Char → List Char → List String → Bool → List String
  | [], current, result, _ => result ++ [trimStr ⟨current⟩]
  | c :: rest, current, result, inQuotes =>
    if c = '"' then parseCSVLineGo rest current result (!inQuotes)
    else if c = ',' ∧ inQuotes = false then
      parseCSVLineGo rest [] (result ++ [trimStr ⟨current⟩]) false
    else parseCSVLineGo rest (current ++ [c]) result inQuotes

/-- Source `parseCSVLine`: split one CSV line into trimmed fields, honouring
double-quoted spans. -/
def parseCSVLine (line : String) : List String :=
  parseCSVLineGo line.toList [] [] false

/-- Declarative view of CSV splitting, following the spec text: first split the
raw characters on commas that sit at even quote depth, keeping every character
(quotes included); returns the first group and the remaining groups. -/
def specSplitRaw : List Char → Bool → List Char × List (List Char)
  | [], _ => ([], [])
  | c :: rest, inQ =>
    if c = ',' ∧ inQ = false then
      let p := specSplitRaw rest false
      ([], p.1 :: p.2)
    else
      let p := specSplitRaw rest (if c = '"' then !inQ else inQ)
      (c :: p.1, p.2)

/-- Spec-side field list: split on unquoted commas, then strip every `"` from
each group and trim it. -/
def specCSVFields (line : String) : List String :=
  let p := specSplitRaw line.toList false
  (p.1 :: p.2).map (fun f => trimStr ⟨f.filter (fun c => c != '"')⟩)

/-! ## Field normalizers (source: `parseBankAmount`, `parseBankDate`) -/

/-- The cleaning step of `parseBankAmount`: drop every `$`, `"` and `,`
character (the `replace(/[$",]/g, "")`), then trim. -/
def cleanAmount (s : String) : String :=
  trimStr ⟨s.toList.filter (fun c => !(c = '$' || c = '"' || c = ','))⟩

/-- Source `parseBankAmount`: clean the raw amount string and `parseFloat` it;
`|| 0` turns a `NaN` result into `0` (and leaves a parsed `0` at `0`). -/
def parseBankAmount (amountStr : String) : ℚ :=
  (jsParseFloat (cleanAmount amountStr)).getD 0

/-- Source `parseBankDate`: split on `/`; with exactly three parts, zero-pad
month and day, map a two-character year through the `>50 ⇒ 19xx, else 20xx`
rule, and emit `year-month-day`; otherwise return the input unchanged. -/
def parseBankDate (dateStr : String) : String :=
  let parts := strSplitChar '/' dateStr
  if parts.length = 3 then
    let month := padStart2 (parts.getD 0 "")
    let day := padStart2 (parts.getD 1 "")
    let year0 := parts.getD 2 ""
    let year :=
      if year0.length = 2 then
        match jsParseIntOpt year0 with
        | some v => if v > 50 then "19" ++ year0 else "20" ++ year0
        | none => "20" ++ year0
      else year0
    year ++ "-" ++ month ++ "-" ++ day
  else dateStr

/-! ## Row parser (source: `ParsedTransaction`, `parseCSV`) -/

structure ParsedTransaction where
  bank_account_id : String
  bank_transaction_id : String
  date : String
  description : String
  amount : ℚ
  balance : ℚ
  bank_category : String
  deriving DecidableEq

/-- The non-blank lines of the CSV blob (`split("\n").filter(line => line.trim())`). -/
def csvLines (csvText : String) : List String :=
  (strSplitChar '\n' csvText).filter (fun l => trimStr l ≠ "")

/-- One iteration of the `parseCSV` loop: split the line into fields; with
fewer than 9 fields the row is dropped, otherwise the fixed field positions
0,1,2,3,5,7,8 are extracted and normalized. -/
def rowToTxn (line : String) : Option ParsedTransaction :=
  let fields := parseCSVLine line
  if fields.length < 9 then none
  else some
    { bank_account_id := fields.getD 0 ""
      bank_transaction_id := fields.getD 1 ""
      date := parseBankDate (fields.getD 2 "")
      description := fields.getD 3 ""
      amount := parseBankAmount (fields.getD 7 "")
      balance := parseBankAmount (fields.getD 8 "")
      bank_category := fields.getD 5 "" }

/-- Source `parseCSV`: keep non-blank lines, require at least a header plus one
data line, skip the header, and convert each remaining line, silently dropping
short rows. -/
def parseCSV (csvText : String) : List ParsedTransaction :=
  let lines := csvLines csvText
  if lines.length < 2 then []
  else (lines.drop 1).filterMap rowToTxn

/-! ## Merchant extractor (source: `extractMerchant`)

The three source regexes are modelled by a small backtracking matcher
specialised to their shape.  Each combinator returns the list of possible
remaining inputs in the order a JS regex engine would try them (alternatives
left to right, greedy quantifiers longest first, lazy quantifiers shortest
first); a full match takes the head of the resulting list, which is the match
the JS engine commits to.  Captures keep the original characters; comparisons
against pattern literals are case-insensitive (`/i`). -/

/-- Case-insensitive test that `pat` is a front segment of `cs` (ASCII). -/
def ciIsPfx : List Char → List Char → Bool
  | [], _ => true
  | _ :: _, [] => false
  | p :: ps, c :: cs => (p.toLower == c.toLower) && ciIsPfx ps cs

/-- Match a literal (case-insensitively): at most one way. -/
def litCI (lit : String) (cs : List Char) : List (List Char) :=
  if ciIsPfx lit.toList cs then [cs.drop lit.length] else []

/-- A plain (non-optional) alternation: arms tried left to right. -/
def altArms (arms : List (List Char → List (List Char))) (cs : List Char) :
    List (List Char) :=
  (arms.map (fun f => f cs)).flatten

/-- An optional group over an alternation: arms left to right, then the empty
branch (a JS `(?:a|b)?` prefers matching over skipping). -/
def optGroupAlts (arms : List (List Char → List (List Char))) (cs : List Char) :
    List (List Char) :=
  altArms arms cs ++ [cs]

/-- Greedy `\s*`: consume as many whitespace characters as possible first. -/
def spacesStarAlts (cs : List Char) : List (List Char) :=
  let n := (cs.takeWhile isSpaceJS).length
  (List.range (n + 1)).map (fun k => cs.drop (n - k))

/-- Greedy `\s+`: like `\s*` but at least one character. -/
def spacesPlusAlts (cs : List Char) : List (List Char) :=
  let n := (cs.takeWhile isSpaceJS).length
  (List.range n).map (fun k => cs.drop (n - k))

/-- `#\d+`: a hash then a greedy non-empty digit run. -/
def hashDigitsAlts (cs : List Char) : List (List Char) :=
  match cs with
  | '#' :: rest =>
    let n := (rest.takeWhile Char.isDigit).length
    (List.range n).map (fun k => rest.drop (n - k))
  | _ => []

/-- The regex `.` without the `s` flag: any character except a line terminator. -/
def isDotChar (c : Char) : Bool :=
  !(c == '\n' || c == '\r' || c == Char.ofNat 0x2028 || c == Char.ofNat 0x2029)

/-- All splits produced by a lazy `(.+?)`: capture lengths in increasing order,
every captured character a `.`-character. -/
def lazyDotPlusSplits (cs : List Char) : List (List Char × List Char) :=
  let n := (cs.takeWhile isDotChar).length
  (List.range n).map (fun i => (cs.take (i + 1), cs.drop (i + 1)))

/-- The trailing group of the first pattern, `(?:\d{3,}|Date|Card|Entry)`:
whether some arm matches at this position (nothing follows it, so only
existence matters). -/
def p1KeyHere (cs : List Char) : Bool :=
  decide (3 ≤ (cs.takeWhile Char.isDigit).length) ||
    ciIsPfx "Date".toList cs || ciIsPfx "Card".toList cs || ciIsPfx "Entry".toList cs

/-- First source pattern:
`/^(?:Withdrawal|Deposit|Recurring Withdrawal)?\s*(?:Debit Card|POS|ACH)?\s*(?:Debit Gold|#\d+)?\s*(.+?)\s+(?:\d{3,}|Date|Card|Entry)/i`;
returns the group-1 capture of the committed match. -/
def pattern1 (cs : List Char) : Option String :=
  ((optGroupAlts [litCI "Withdrawal", litCI "Deposit", litCI "Recurring Withdrawal"] cs).flatMap
    (fun a => (spacesStarAlts a).flatMap
    (fun b => (optGroupAlts [litCI "Debit Card", litCI "POS", litCI "ACH"] b).flatMap
    (fun c => (spacesStarAlts c).flatMap
    (fun d => (optGroupAlts [litCI "Debit Gold", hashDigitsAlts] d).flatMap
    (fun e => (spacesStarAlts e).flatMap
    (fun f => (lazyDotPlusSplits f).flatMap
    (fun pr => (spacesPlusAlts pr.2).flatMap
    (fun g => if p1KeyHere g then [pr.1] else []))))))))).head?.map
    (fun cap => (⟨cap⟩ : String))

/-- Second source pattern:
`/^(?:Withdrawal|Deposit)\s+(?:Online Banking )?Transfer\s+(To|From)\s+/i`;
the capture is the matched `To`/`From` text. -/
def pattern2 (cs : List Char) : Option String :=
  ((altArms [litCI "Withdrawal", litCI "Deposit"] cs).flatMap
    (fun a => (spacesPlusAlts a).flatMap
    (fun b => (optGroupAlts [litCI "Online Banking "] b).flatMap
    (fun c => (litCI "Transfer" c).flatMap
    (fun d => (spacesPlusAlts d).flatMap
    (fun e =>
      ((if ciIsPfx "To".toList e then [(e.take 2, e.drop 2)] else []) ++
       (if ciIsPfx "From".toList e then [(e.take 4, e.drop 4)] else [])).flatMap
      (fun pr =>
        if 1 ≤ (pr.2.takeWhile isSpaceJS).length then [pr.1] else []))))))).head?.map
    (fun cap => (⟨cap⟩ : String))

/-- Membership in the city-suffix alternation of the third pattern. -/
def p3CityHere (cs : List Char) : Bool :=
  ciIsPfx "SEATTLE".toList cs || ciIsPfx "PENNSVILLE".toList cs ||
    ciIsPfx "CUPERTINO".toList cs || ciIsPfx "NEWARK".toList cs ||
    ciIsPfx "MARLTON".toList cs || ciIsPfx "WOODSTOWN".toList cs ||
    ciIsPfx "HARRISBURG".toList cs

/-- Third source pattern:
`/^(.+?)\s+(?:SEATTLE|PENNSVILLE|CUPERTINO|NEWARK|MARLTON|WOODSTOWN|HARRISBURG)/i`. -/
def pattern3 (cs : List Char) : Option String :=
  ((lazyDotPlusSplits cs).flatMap
    (fun pr => (spacesPlusAlts pr.2).flatMap
    (fun g => if p3CityHere g then [pr.1] else []))).head?.map
    (fun cap => (⟨cap⟩ : String))

/-- JS `String.prototype.substring(0, 50)`. -/
def jsSubstring50 (s : String) : String :=
  ⟨s.toList.take 50⟩

/-- Source `extractMerchant`: try the three patterns in order; the first whose
group-1 capture is non-empty wins (all three captures are non-empty by
construction, matching the source's `match && match[1]` test), trimmed and cut
to 50 characters; otherwise the raw description cut to 50 characters. -/
def extractMerchant (description : String) : String :=
  match pattern1 description.toList with
  | some cap => jsSubstring50 (trimStr cap)
  | none =>
    match pattern2 description.toList with
    | some cap => jsSubstring50 (trimStr cap)
    | none =>
      match pattern3 description.toList with
      | some cap => jsSubstring50 (trimStr cap)
      | none => jsSubstring50 description

/-! ## Transaction classifier (source: `detectTransactionType`) -/

set_option linter.unusedVariables false in
/-- Source `detectTransactionType`: cascade of keyword/category rules; returns
one of the four label strings.  The amount parameter is unused, exactly as in
the source. -/
def detectTransactionType (description : String) (amount : ℚ)
    (bankCategory : String) : String :=
  let desc := lowerStr description
  if strIncludes desc "payroll" || strIncludes desc "deposit ach" ||
      strIncludes desc "dividend" ||
      bankCategory == "Paychecks/Salary" || bankCategory == "Investment Income" then
    "income"
  else if strIncludes desc "transfer" || bankCategory == "Transfers" then
    "transfer"
  else if strIncludes desc "apple.com/bill" || strIncludes desc "godaddy" ||
      strIncludes desc "guardian life" || strIncludes desc "firstmark" ||
      strIncludes desc "mr.cooper" || strIncludes desc "nsm dbamr" ||
      strIncludes desc "ez pass" ||
      bankCategory == "Insurance" || bankCategory == "Mortgages" ||
      bankCategory == "Loans" || bankCategory == "Online Services" then
    "recurring"
  else "misc"

/-! ## Bills and bill matching (source: `Bill`, `findMatchingBill`) -/

structure Bill where
  id : Nat
  user_id : String
  name : String
  due_day : Option Nat
  amount_expected : Option ℚ
  is_variable : Bool
  autopay : Bool
  active : Bool
  deriving DecidableEq

/-- Loop of `findMatchingBill` over the bills list. -/
def findMatchingBillGo (merchantLower : String) : List Bill → Option Bill
  | [] => none
  | bill :: rest =>
    let billNameLower := lowerStr bill.name
    if strIncludes merchantLower billNameLower ||
        strIncludes billNameLower merchantLower then some bill
    else findMatchingBillGo merchantLower rest

/-- Source `findMatchingBill`: first bill, in list order, whose lower-cased
name contains or is contained in the lower-cased merchant label. -/
def findMatchingBill (merchant : String) (bills : List Bill) : Option Bill :=
  findMatchingBillGo (lowerStr merchant) bills

/-! ## The per-transaction processing loop of `handleFileUpload`

The loop body classifies a parsed transaction, extracts its merchant, and for
recurring outflows matches or creates a bill.  The backend `createBill` call is
modelled by a response function `resp : Nat → BillReq → Option Bill` indexed by
how many create requests were issued before (so distinct calls may behave
differently); `none` models a request that throws, which the source catches and
logs, continuing without a bill link. -/

/-- The body of a `createBill` request (the source's `Omit<Bill, "id">`). -/
structure BillReq where
  user_id : String
  name : String
  due_day : Option Nat
  amount_expected : Option ℚ
  is_variable : Bool
  autopay : Bool
  active : Bool
  deriving DecidableEq

/-- An element of the `txnData` array sent to the bulk transaction insert.
`user_id` is the source's `parseInt(userId)` with `none` for `NaN`. -/
structure TxnRec where
  user_id : Option Int
  date : String
  merchant : String
  description : String
  amount : ℚ
  category_id : Nat
  account_id : Nat
  (import_id : Nat)
  is_split : Bool
  notes : String
  is_recurring : Bool
  bill_id : Option Nat
  transaction_type : String
  deriving DecidableEq

/-- `new Date(s).getDate()` for an ISO `YYYY-MM-DD` string, at a UTC-offset
zero locale: the day-of-month component.  Any other shape gives `none`
(an invalid date, whose `getDate()` is `NaN`). -/
def jsDateGetDate (s : String) : Option Nat :=
  match strSplitChar '-' s with
  | [y, m, d] =>
    if y.toList ≠ [] ∧ y.toList.all Char.isDigit ∧
        m.toList ≠ [] ∧ m.toList.all Char.isDigit ∧
        d.toList ≠ [] ∧ d.toList.all Char.isDigit then
      some (digitsToNat d.toList)
    else none
  | _ => none

/-- The `createBill` request the source builds for a recurring outflow:
name = merchant label, due day = day-of-month of the transaction date,
expected amount = absolute value of the amount, fixed flags. -/
def billReqOf (userId : String) (p : ParsedTransaction) : BillReq :=
  { user_id := userId
    name := extractMerchant p.description
    due_day := jsDateGetDate p.date
    amount_expected := some |p.amount|
    is_variable := false
    autopay := false
    active := true }

/-- The record pushed onto `txnData` for one parsed transaction. -/
def mkTxnRec (userId : String) (importId : Nat) (p : ParsedTransaction)
    (merchant txnType : String) (billId : Option Nat) : TxnRec :=
  { user_id := jsParseIntOpt userId
    date := p.date
    merchant := merchant
    description := p.description
    amount := p.amount
    category_id := 0
    account_id := 0, import_id := importId
    is_split := false
    notes := ""
    is_recurring := txnType == "recurring"
    bill_id := billId
    transaction_type := txnType }

/-- Loop state of the processing phase: the in-batch map of bills created in
this upload (a JS `Map`, modelled as an insertion-ordered association list —
keys are inserted only when absent, so first-match lookup coincides with the
`Map`), the in-memory active-bills list, the accumulated `txnData`, and the
`createBill` requests issued so far (successful or not). -/
structure ProcState where
  createdBillsByMerchant : List (String × Bill)
  activeBills : List Bill
  txnData : List TxnRec
  billReqs : List BillReq
  deriving DecidableEq

/-- Initial processing state for an upload batch. -/
def initProcState (activeBills : List Bill) : ProcState :=
  { createdBillsByMerchant := [], activeBills := activeBills,
    txnData := [], billReqs := [] }

/-- One iteration of the `for (const p of parsed)` loop in `handleFileUpload`. -/
def processOne (resp : Nat → BillReq → Option Bill) (userId : String)
    (importId : Nat) (st : ProcState) (p : ParsedTransaction) : ProcState :=
  let txnType := detectTransactionType p.description p.amount p.bank_category
  let merchant := extractMerchant p.description
  if txnType = "recurring" ∧ p.amount < 0 then
    let merchantKey := lowerStr merchant
    match st.createdBillsByMerchant.lookup merchantKey with
    | some b =>
      { st with txnData := st.txnData ++ [mkTxnRec userId importId p merchant txnType (some b.id)] }
    | none =>
      match findMatchingBill merchant st.activeBills with
      | some b =>
        { st with txnData := st.txnData ++ [mkTxnRec userId importId p merchant txnType (some b.id)] }
      | none =>
        let req := billReqOf userId p
        match resp st.billReqs.length req with
        | some newBill =>
          { createdBillsByMerchant := st.createdBillsByMerchant ++ [(merchantKey, newBill)]
            activeBills := st.activeBills ++ [newBill]
            txnData := st.txnData ++ [mkTxnRec userId importId p merchant txnType (some newBill.id)]
            billReqs := st.billReqs ++ [req] }
        | none =>
          -- `catch (billError) { console.error(...) }`: logged only, no bill link
          { st with
            txnData := st.txnData ++ [mkTxnRec userId importId p merchant txnType none]
            billReqs := st.billReqs ++ [req] }
  else
    { st with txnData := st.txnData ++ [mkTxnRec userId importId p merchant txnType none] }

/-- The whole processing loop over the parsed transactions. -/
def processAll (resp : Nat → BillReq → Option Bill) (userId : String)
    (importId : Nat) (st : ProcState) (parsed : List ParsedTransaction) : ProcState :=
  parsed.foldl (processOne resp userId importId) st

/-! ## Import orchestrator (source: `handleFileUpload`) -/

/-- The body of the `createImport` request. -/
structure ImportReq where
  user_id : String
  filename : String
  account_type : String
  status : String
  record_count : Nat
  deriving DecidableEq

/-- One element of the raw-transactions bulk insert.  The source's
`raw_text_line: JSON.stringify(p)` is modelled by carrying the parsed record
itself (the serialization is injective and never read back). -/
structure RawTxnReq where
  (import_id : Nat)
  user_id : String
  date : String
  description : String
  amount : ℚ
  currency : String
  confidence : Nat
  raw_text_line : ParsedTransaction
  bank_account_id : String
  bank_transaction_id : String
  bank_category : String
  balance : ℚ
  deriving DecidableEq

/-- A backend write request issued during an upload. -/
inductive WriteOp where
  | createImport (req : ImportReq)
  | createTransactionsRaw (rows : List RawTxnReq)
  | createBill (req : BillReq)
  | createTransactionsBulk (userId : Option Int) (rows : List TxnRec)
  deriving DecidableEq

/-- Observable outcome of one upload: the caught error message shown in the
error banner (`none` on success) and the backend write requests issued, in
order.  Writes already issued are never rolled back on a later failure. -/
structure UploadOutcome where
  err : Option String
  writes : List WriteOp
  deriving DecidableEq

/-- Backend responses for the calls `handleFileUpload` makes, in source order:
`createImport`, `createTransactionsRaw`, `listBills`, `createBill` (any number
of times), `createTransactionsBulk`.  An `Except.error` models a request that
throws with that message. -/
structure BackendModel where
  (importResp : ImportReq → Except String Nat)
  rawResp : List RawTxnReq → Except String Unit
  listBillsResp : List Bill
  billResp : Nat → BillReq → Option Bill
  bulkResp : List TxnRec → Except String Unit

/-- The raw-transaction row stored for one parsed transaction. -/
def rawTxnOf (importId : Nat) (userId : String) (p : ParsedTransaction) : RawTxnReq :=
  { import_id := importId
    user_id := userId
    date := p.date
    description := p.description
    amount := p.amount
    currency := "USD"
    confidence := 1
    raw_text_line := p
    bank_account_id := p.bank_account_id
    bank_transaction_id := p.bank_transaction_id
    bank_category := p.bank_category
    balance := p.balance }

/-- Source `handleFileUpload`, from the point where the file text is in hand:
parse the CSV, fail early when nothing parsed, then create the import record,
store raw rows, list bills, run the processing loop, and bulk-save the
processed transactions.  UI-state updates (progress messages, refresh) are not
modelled; the outcome records the error banner text and the write requests. -/
def handleFileUpload (be : BackendModel) (userId fileText fileName accountType : String) :
    UploadOutcome :=
  let parsed := parseCSV fileText
  if parsed.length = 0 then
    { err := some "No valid transactions found in CSV", writes := [] }
  else
    let importReq : ImportReq :=
      { user_id := userId, filename := fileName, account_type := accountType,
        status := "processing", record_count := parsed.length }
    match be.importResp importReq with
    | .error msg => { err := some msg, writes := [.createImport importReq] }
    | .ok importId =>
      let rawTxns := parsed.map (rawTxnOf importId userId)
      match be.rawResp rawTxns with
      | .error msg =>
        { err := some msg,
          writes := [.createImport importReq, .createTransactionsRaw rawTxns] }
      | .ok _ =>
        let activeBills := be.listBillsResp.filter (fun b => b.active)
        let finalSt := processAll be.billResp userId importId
          (initProcState activeBills) parsed
        let writes := [WriteOp.createImport importReq,
            WriteOp.createTransactionsRaw rawTxns] ++
          finalSt.billReqs.map WriteOp.createBill ++
          [WriteOp.createTransactionsBulk (jsParseIntOpt userId) finalSt.txnData]
        match be.bulkResp finalSt.txnData with
        | .error msg => { err := some msg, writes := writes }
        | .ok _ => { err := none, writes := writes }

/-! ## Theorems -/

/-- C5, counterexample: the claim says any input that is not of shape
`MM/DD/YYYY` or `MM/DD/YY` is returned unchanged, but `"1/1/1"` (a one-digit
year, so neither shape) is reformatted to `"1-01-01"` rather than passed
through. -/
theorem parseBankDate_passthrough_counterexample :
    parseBankDate "1/1/1" = "1-01-01" ∧ parseBankDate "1/1/1" ≠ "1/1/1" := by
  decide

/-- C5 (amended): date normalization passes through unchanged exactly the
inputs that do not split into three `/`-separated parts.  With three parts the
output is always `year-month-day` with month and day zero-padded to width 2;
a two-character year is mapped to `19xx` when its `parseInt` value exceeds 50
and to `20xx` otherwise, and any other year length is kept as is.  In
particular `"3/5/2024" = "2024-03-05"`, `"1/1/51"` maps to year 1951 and
`"1/1/50"` to year 2050, and the function never errors (it is total). -/
theorem parseBankDate_amended :
    (∀ s, (strSplitChar '/' s).length ≠ 3 → parseBankDate s = s) ∧
    (∀ s m d y, strSplitChar '/' s = [m, d, y] → y.length ≠ 2 →
      parseBankDate s = y ++ "-" ++ padStart2 m ++ "-" ++ padStart2 d) ∧
    (∀ s m d y n, strSplitChar '/' s = [m, d, y] → y.length = 2 →
      jsParseIntOpt y = some n →
      parseBankDate s =
        (if n > 50 then "19" ++ y else "20" ++ y) ++ "-" ++
          padStart2 m ++ "-" ++ padStart2 d) ∧
    parseBankDate "3/5/2024" = "2024-03-05" ∧
    parseBankDate "1/1/51" = "1951-01-01" ∧
    parseBankDate "1/1/50" = "2050-01-01" := by
  refine ⟨?_, ?_, ?_, by decide, by decide, by decide⟩
  · intro s h
    unfold parseBankDate
    simp only [if_neg h]
  · intro s m d y hsplit hy
    unfold parseBankDate
    rw [hsplit]
    simp [hy]
  · intro s m d y n hsplit hy hn
    unfold parseBankDate
    rw [hsplit]
    simp [hy, hn]

/-- C5, witness for the amended theorem at concrete inputs. -/
theorem parseBankDate_amended_witness :
    (strSplitChar '/' "abc").length ≠ 3 ∧ parseBankDate "abc" = "abc" :=
  ⟨by decide, parseBankDate_amended.1 "abc" (by decide)⟩

/-- C8: amount normalization strips `$`, `"` and `,`, trims, and parses the
result as a (JS) float; a parse failure yields `0` and a successful parse
yields the parsed value, so the function is total; `'"$1,234.56"'` normalizes
to 1234.56 and unparseable input to 0. -/
theorem parseBankAmount_spec :
    (∀ s, jsParseFloat (cleanAmount s) = none → parseBankAmount s = 0) ∧
    (∀ s q, jsParseFloat (cleanAmount s) = some q → parseBankAmount s = q) ∧
    parseBankAmount "\"$1,234.56\"" = mkRat 123456 100 ∧
    parseBankAmount "abc" = 0 := by
  refine ⟨?_, ?_, by decide, by decide⟩
  · intro s h
    unfold parseBankAmount
    rw [h]
    rfl
  · intro s q h
    unfold parseBankAmount
    rw [h]
    rfl

/-- C8, witness: a concrete successful parse through the theorem. -/
theorem parseBankAmount_spec_witness :
    jsParseFloat (cleanAmount "7y") = some 7 ∧ parseBankAmount "7y" = 7 :=
  ⟨by decide, parseBankAmount_spec.2.1 "7y" 7 (by decide)⟩

/-- C1: the classifier always returns one of the four labels, and a
description containing "payroll" (case-insensitively) is classified income
regardless of the amount and the bank category — the income rule is checked
first, so recurring-merchant keywords or recurring categories in the same
input cannot override it. -/
theorem detectTransactionType_total_priority :
    ∀ d (a : ℚ) c,
      (detectTransactionType d a c = "income" ∨
        detectTransactionType d a c = "transfer" ∨
        detectTransactionType d a c = "recurring" ∨
        detectTransactionType d a c = "misc") ∧
      (strIncludes (lowerStr d) "payroll" = true →
        detectTransactionType d a c = "income") ∧
      ((strIncludes (lowerStr d) "transfer" || (c == "Transfers")) = true →
        detectTransactionType d a c = "income" ∨
        detectTransactionType d a c = "transfer") ∧
      ((strIncludes (lowerStr d) "apple.com/bill" || strIncludes (lowerStr d) "godaddy" ||
          strIncludes (lowerStr d) "guardian life" || strIncludes (lowerStr d) "firstmark" ||
          strIncludes (lowerStr d) "mr.cooper" || strIncludes (lowerStr d) "nsm dbamr" ||
          strIncludes (lowerStr d) "ez pass" || (c == "Insurance") || (c == "Mortgages") ||
          (c == "Loans") || (c == "Online Services")) = true →
        detectTransactionType d a c = "income" ∨
        detectTransactionType d a c = "transfer" ∨
        detectTransactionType d a c = "recurring") := by
  intro d a c
  refine ⟨?_, ?_, ?_, ?_⟩
  · simp only [detectTransactionType]
    split
    · exact Or.inl rfl
    · split
      · exact Or.inr (Or.inl rfl)
      · split
        · exact Or.inr (Or.inr (Or.inl rfl))
        · exact Or.inr (Or.inr (Or.inr rfl))
  · intro h
    simp only [detectTransactionType]
    simp [h]
  · intro h
    simp only [detectTransactionType]
    split
    · exact Or.inl rfl
    · simp [h]
  · intro h
    simp only [detectTransactionType]
    split
    · exact Or.inl rfl
    · split
      · exact Or.inr (Or.inl rfl)
      · simp [h]

/-- C1, witness: a payroll description that also contains the
recurring-merchant keyword "godaddy" and carries a recurring bank category is
still income. -/
theorem detectTransactionType_total_priority_witness :
    strIncludes (lowerStr "ACME Payroll godaddy") "payroll" = true ∧
    detectTransactionType "ACME Payroll godaddy" (-5) "Online Services" = "income" :=
  ⟨by decide, (detectTransactionType_total_priority "ACME Payroll godaddy" (-5)
    "Online Services").2.1 (by decide)⟩

/-- The `findMatchingBill` loop is first-match search with the bidirectional
case-insensitive containment predicate. -/
theorem findMatchingBillGo_eq_find (ml : String) (bills : List Bill) :
    findMatchingBillGo ml bills = bills.find?
      (fun b => strIncludes ml (lowerStr b.name) || strIncludes (lowerStr b.name) ml) := by
  induction bills with
  | nil => rfl
  | cons b rest ih =>
    by_cases hp : (strIncludes ml (lowerStr b.name) || strIncludes (lowerStr b.name) ml) = true
    · simp [findMatchingBillGo, List.find?_cons, hp]
    · simp [findMatchingBillGo, List.find?_cons, hp, ih]

/-- C4: bill matching scans the existing bills in list order and returns the
first bill whose lower-cased name contains, or is contained in, the
lower-cased merchant label (no scoring); merchant "AMAZON PRIME" matches a
bill named "Amazon", and merchant "Amazon" matches a bill named
"Amazon Prime Video". -/
theorem findMatchingBill_first_substring_match :
    (∀ merchant bills, findMatchingBill merchant bills = bills.find?
      (fun b => strIncludes (lowerStr merchant) (lowerStr b.name) ||
        strIncludes (lowerStr b.name) (lowerStr merchant))) ∧
    findMatchingBill "AMAZON PRIME"
        [⟨1, "u", "Amazon", none, none, false, false, true⟩] =
      some ⟨1, "u", "Amazon", none, none, false, false, true⟩ ∧
    findMatchingBill "Amazon"
        [⟨2, "u", "Amazon Prime Video", none, none, false, false, true⟩] =
      some ⟨2, "u", "Amazon Prime Video", none, none, false, false, true⟩ := by
  refine ⟨?_, by decide, by decide⟩
  intro merchant bills
  exact findMatchingBillGo_eq_find (lowerStr merchant) bills

/-- The accumulator loop of `parseCSVLine` refines the split-then-clean view:
the emitted fields are the already-pushed `result`, then the current partial
field joined with the rest of its group, then the remaining groups, each group
stripped of quotes and trimmed. -/
theorem parseCSVLineGo_spec (cs : List Char) :
    ∀ (inQ : Bool) (current : List Char) (result : List String),
      parseCSVLineGo cs current result inQ =
        result ++
          (trimStr ⟨current ++ (specSplitRaw cs inQ).1.filter (fun c => c != '"')⟩ ::
            (specSplitRaw cs inQ).2.map (fun f => trimStr ⟨f.filter (fun c => c != '"')⟩)) := by
  induction cs with
  | nil =>
    intro inQ current result
    simp [parseCSVLineGo, specSplitRaw]
  | cons c rest ih =>
    intro inQ current result
    by_cases hq : c = '"'
    · subst hq
      simp [parseCSVLineGo, specSplitRaw, ih]
    · by_cases hc : c = ',' ∧ inQ = false
      · obtain ⟨hc1, hc2⟩ := hc
        subst hc1
        subst hc2
        simp [parseCSVLineGo, specSplitRaw, hq, ih]
      · simp [parseCSVLineGo, specSplitRaw, hq, hc, ih]

/-- C6: the CSV line parser splits on commas, except that commas inside a
double-quoted span are literal text; quote characters are stripped from the
fields and each field is trimmed; in particular the line `A,"B,C",D` parses to
the three fields `A`, `B,C`, `D`. -/
theorem parseCSVLine_spec_and_quoted_comma :
    (∀ line, parseCSVLine line = specCSVFields line) ∧
    parseCSVLine "A,\"B,C\",D" = ["A", "B,C", "D"] := by
  refine ⟨?_, by decide⟩
  intro line
  unfold parseCSVLine specCSVFields
  rw [parseCSVLineGo_spec]
  simp

/-- Each data row contributes to the parsed output exactly when it splits into
at least 9 fields: the output count plus the malformed-row count is the row
count. -/
theorem filterMap_rowToTxn_length (ls : List String) :
    (ls.filterMap rowToTxn).length +
      (ls.filter (fun l => decide ((parseCSVLine l).length < 9))).length = ls.length := by
  induction ls with
  | nil => rfl
  | cons l rest ih =>
    by_cases h : (parseCSVLine l).length < 9 <;>
      simp [List.filterMap_cons, List.filter_cons, rowToTxn, h] <;> omega

/-- C7: the row parser drops blank lines, requires a header plus at least one
data line (otherwise it returns the empty list, never an error), skips the
header, and silently drops exactly the data rows with fewer than 9 fields, so
the output count is the data-row count minus the malformed-row count; empty
and header-only inputs give the empty list. -/
theorem parseCSV_row_filtering :
    (∀ csvText, (csvLines csvText).length < 2 → parseCSV csvText = []) ∧
    (∀ csvText, 2 ≤ (csvLines csvText).length →
      (parseCSV csvText).length +
        (((csvLines csvText).drop 1).filter
          (fun l => decide ((parseCSVLine l).length < 9))).length =
        ((csvLines csvText).drop 1).length) ∧
    parseCSV "" = [] ∧
    parseCSV "header only" = [] := by
  refine ⟨?_, ?_, by decide, by decide⟩
  · intro t h
    unfold parseCSV
    simp only [if_pos h]
  · intro t h
    unfold parseCSV
    rw [if_neg (by omega)]
    exact filterMap_rowToTxn_length _

/-- C7, witness: a file with a header, one well-formed data row and one
malformed data row parses to exactly one transaction. -/
theorem parseCSV_row_filtering_witness :
    2 ≤ (csvLines "h\na,b,3/5/2024,d,x,c,y,1,2\nbad").length ∧
    (parseCSV "h\na,b,3/5/2024,d,x,c,y,1,2\nbad").length +
      (((csvLines "h\na,b,3/5/2024,d,x,c,y,1,2\nbad").drop 1).filter
        (fun l => decide ((parseCSVLine l).length < 9))).length =
      ((csvLines "h\na,b,3/5/2024,d,x,c,y,1,2\nbad").drop 1).length :=
  ⟨by decide, parseCSV_row_filtering.2.1 "h\na,b,3/5/2024,d,x,c,y,1,2\nbad" (by decide)⟩

/-- A transaction that is not a recurring outflow only appends its `txnData`
record, with no bill link and no bill activity. -/
theorem processOne_not_recurring (resp : Nat → BillReq → Option Bill)
    (userId : String) (importId : Nat) (st : ProcState) (p : ParsedTransaction)
    (h : ¬(detectTransactionType p.description p.amount p.bank_category = "recurring" ∧
        p.amount < 0)) :
    processOne resp userId importId st p =
      { st with txnData := st.txnData ++
          [mkTxnRec userId importId p (extractMerchant p.description)
            (detectTransactionType p.description p.amount p.bank_category) none] } := by
  simp only [processOne]
  rw [if_neg h]

/-- A recurring outflow whose merchant key is already in the in-batch map links
to that bill and changes nothing else. -/
theorem processOne_inbatch_hit (resp : Nat → BillReq → Option Bill)
    (userId : String) (importId : Nat) (st : ProcState) (p : ParsedTransaction)
    (b : Bill)
    (h1 : detectTransactionType p.description p.amount p.bank_category = "recurring")
    (h2 : p.amount < 0)
    (h3 : st.createdBillsByMerchant.lookup (lowerStr (extractMerchant p.description)) =
      some b) :
    processOne resp userId importId st p =
      { st with txnData := st.txnData ++
          [mkTxnRec userId importId p (extractMerchant p.description) "recurring"
            (some b.id)] } := by
  simp only [processOne]
  rw [if_pos ⟨h1, h2⟩, h3, h1]

/-- A recurring outflow that misses the in-batch map but matches an existing
active bill links to that bill and changes nothing else. -/
theorem processOne_existing_match (resp : Nat → BillReq → Option Bill)
    (userId : String) (importId : Nat) (st : ProcState) (p : ParsedTransaction)
    (b : Bill)
    (h1 : detectTransactionType p.description p.amount p.bank_category = "recurring")
    (h2 : p.amount < 0)
    (h3 : st.createdBillsByMerchant.lookup (lowerStr (extractMerchant p.description)) = none)
    (h4 : findMatchingBill (extractMerchant p.description) st.activeBills = some b) :
    processOne resp userId importId st p =
      { st with txnData := st.txnData ++
          [mkTxnRec userId importId p (extractMerchant p.description) "recurring"
            (some b.id)] } := by
  simp only [processOne]
  rw [if_pos ⟨h1, h2⟩, h3, h4, h1]

/-- A recurring outflow with no in-batch and no existing match issues a
`createBill` request; on success the new bill is recorded in the in-batch map,
appended to the active bills, and linked to the transaction. -/
theorem processOne_create_success (resp : Nat → BillReq → Option Bill)
    (userId : String) (importId : Nat) (st : ProcState) (p : ParsedTransaction)
    (nb : Bill)
    (h1 : detectTransactionType p.description p.amount p.bank_category = "recurring")
    (h2 : p.amount < 0)
    (h3 : st.createdBillsByMerchant.lookup (lowerStr (extractMerchant p.description)) = none)
    (h4 : findMatchingBill (extractMerchant p.description) st.activeBills = none)
    (h5 : resp st.billReqs.length (billReqOf userId p) = some nb) :
    processOne resp userId importId st p =
      { createdBillsByMerchant :=
          st.createdBillsByMerchant ++ [(lowerStr (extractMerchant p.description), nb)]
        activeBills := st.activeBills ++ [nb]
        txnData := st.txnData ++
          [mkTxnRec userId importId p (extractMerchant p.description) "recurring"
            (some nb.id)]
        billReqs := st.billReqs ++ [billReqOf userId p] } := by
  simp only [processOne]
  rw [if_pos ⟨h1, h2⟩, h3, h4, h5, h1]

/-- A recurring outflow with no match and a failing `createBill` request keeps
the state except for recording the attempted request, and appends the
transaction with no bill link. -/
theorem processOne_create_fail (resp : Nat → BillReq → Option Bill)
    (userId : String) (importId : Nat) (st : ProcState) (p : ParsedTransaction)
    (h1 : detectTransactionType p.description p.amount p.bank_category = "recurring")
    (h2 : p.amount < 0)
    (h3 : st.createdBillsByMerchant.lookup (lowerStr (extractMerchant p.description)) = none)
    (h4 : findMatchingBill (extractMerchant p.description) st.activeBills = none)
    (h5 : resp st.billReqs.length (billReqOf userId p) = none) :
    processOne resp userId importId st p =
      { st with
        txnData := st.txnData ++
          [mkTxnRec userId importId p (extractMerchant p.description) "recurring" none]
        billReqs := st.billReqs ++ [billReqOf userId p] } := by
  simp only [processOne]
  rw [if_pos ⟨h1, h2⟩, h3, h4, h5, h1]

/-- C3: bill matching/creation runs only for transactions classified recurring
with a negative amount (any other transaction only appends its record, with no
bill link and no bill activity); and when neither the in-batch map nor the
existing bills match, the issued `createBill` request has name = merchant
label, due day = day-of-month of the transaction date, expected amount =
absolute amount, is_variable false, autopay false, active true, and the
created bill is recorded in the in-batch map and appended to the in-memory
active-bills list. -/
theorem bill_matching_scope_and_new_bill_fields :
    (∀ (resp : Nat → BillReq → Option Bill) (userId : String) (importId : Nat)
      (st : ProcState) (p : ParsedTransaction),
      ¬(detectTransactionType p.description p.amount p.bank_category = "recurring" ∧
          p.amount < 0) →
      processOne resp userId importId st p =
        { st with txnData := st.txnData ++
            [mkTxnRec userId importId p (extractMerchant p.description)
              (detectTransactionType p.description p.amount p.bank_category) none] }) ∧
    (∀ (resp : Nat → BillReq → Option Bill) (userId : String) (importId : Nat)
      (st : ProcState) (p : ParsedTransaction) (nb : Bill) (day : Nat),
      detectTransactionType p.description p.amount p.bank_category = "recurring" →
      p.amount < 0 →
      jsDateGetDate p.date = some day →
      st.createdBillsByMerchant.lookup (lowerStr (extractMerchant p.description)) = none →
      findMatchingBill (extractMerchant p.description) st.activeBills = none →
      resp st.billReqs.length (billReqOf userId p) = some nb →
      billReqOf userId p =
        { user_id := userId
          name := extractMerchant p.description
          due_day := some day
          amount_expected := some |p.amount|
          is_variable := false
          autopay := false
          active := true } ∧
      processOne resp userId importId st p =
        { createdBillsByMerchant :=
            st.createdBillsByMerchant ++ [(lowerStr (extractMerchant p.description), nb)]
          activeBills := st.activeBills ++ [nb]
          txnData := st.txnData ++
            [mkTxnRec userId importId p (extractMerchant p.description) "recurring"
              (some nb.id)]
          billReqs := st.billReqs ++ [billReqOf userId p] }) := by
  constructor
  · intro resp userId importId st p h
    exact processOne_not_recurring resp userId importId st p h
  · intro resp userId importId st p nb day h1 h2 hday h3 h4 h5
    refine ⟨?_, processOne_create_success resp userId importId st p nb h1 h2 h3 h4 h5⟩
    unfold billReqOf
    rw [hday]

/-! Concrete data for the loop witnesses: two Netflix charges (classified
recurring through the "Online Services" bank category), an empty initial bills
list, and a backend that echoes the request back with id 7. -/

def pW1 : ParsedTransaction :=
  ⟨"a", "t1", "2024-03-05", "Netflix", -16, 0, "Online Services"⟩

def pW2 : ParsedTransaction :=
  ⟨"a", "t2", "2024-03-09", "NETFLIX", -16, 0, "Online Services"⟩

def bW : Bill := ⟨7, "42", "Netflix", some 5, some 16, false, false, true⟩

def respW : Nat → BillReq → Option Bill := fun _ req =>
  some ⟨7, req.user_id, req.name, req.due_day, req.amount_expected,
    req.is_variable, req.autopay, req.active⟩

/-- C3, witness: the creation branch of the theorem at the concrete Netflix
transaction. -/
theorem bill_matching_scope_and_new_bill_fields_witness :
    billReqOf "42" pW1 =
      { user_id := "42", name := "Netflix", due_day := some 5,
        amount_expected := some 16, is_variable := false, autopay := false,
        active := true } ∧
    processOne respW "42" 9 (initProcState []) pW1 =
      { createdBillsByMerchant := [("netflix", bW)]
        activeBills := [bW]
        txnData := [mkTxnRec "42" 9 pW1 "Netflix" "recurring" (some 7)]
        billReqs := [billReqOf "42" pW1] } := by
  have h := bill_matching_scope_and_new_bill_fields.2 respW "42" 9 (initProcState [])
    pW1 bW 5 (by decide) (by decide) (by decide) (by decide) (by decide) (by decide)
  refine ⟨h.1, ?_⟩
  rw [h.2]
  decide

/-- C2: within one import batch, bill creation is de-duplicated by lower-cased
merchant name: processing two recurring negative-amount transactions whose
merchant labels agree up to case, starting with no matching pre-existing bill,
issues exactly one `createBill` request, records exactly one in-batch bill,
and links both transactions (in particular the second) to the bill created for
the first. -/
theorem bill_dedup_within_batch
    (resp : Nat → BillReq → Option Bill) (userId : String) (importId : Nat)
    (bills0 : List Bill) (p1 p2 : ParsedTransaction) (b : Bill)
    (h1 : detectTransactionType p1.description p1.amount p1.bank_category = "recurring")
    (h2 : p1.amount < 0)
    (h3 : detectTransactionType p2.description p2.amount p2.bank_category = "recurring")
    (h4 : p2.amount < 0)
    (h5 : lowerStr (extractMerchant p2.description) = lowerStr (extractMerchant p1.description))
    (h6 : findMatchingBill (extractMerchant p1.description) bills0 = none)
    (h7 : resp 0 (billReqOf userId p1) = some b) :
    (processAll resp userId importId (initProcState bills0) [p1, p2]).billReqs =
      [billReqOf userId p1] ∧
    (processAll resp userId importId (initProcState bills0) [p1, p2]).createdBillsByMerchant =
      [(lowerStr (extractMerchant p1.description), b)] ∧
    (processAll resp userId importId (initProcState bills0) [p1, p2]).txnData.map
      TxnRec.bill_id = [some b.id, some b.id] := by
  have e1 : processOne resp userId importId (initProcState bills0) p1 =
      { createdBillsByMerchant := [(lowerStr (extractMerchant p1.description), b)]
        activeBills := bills0 ++ [b]
        txnData := [mkTxnRec userId importId p1 (extractMerchant p1.description)
          "recurring" (some b.id)]
        billReqs := [billReqOf userId p1] } :=
    processOne_create_success resp userId importId (initProcState bills0) p1 b h1 h2
      rfl h6 h7
  have hlk : List.lookup (lowerStr (extractMerchant p2.description))
      [(lowerStr (extractMerchant p1.description), b)] = some b := by
    rw [h5]
    simp [List.lookup]
  have e2 := processOne_inbatch_hit resp userId importId
    { createdBillsByMerchant := [(lowerStr (extractMerchant p1.description), b)]
      activeBills := bills0 ++ [b]
      txnData := [mkTxnRec userId importId p1 (extractMerchant p1.description)
        "recurring" (some b.id)]
      billReqs := [billReqOf userId p1] } p2 b h3 h4 hlk
  have eall : processAll resp userId importId (initProcState bills0) [p1, p2] =
      processOne resp userId importId
        (processOne resp userId importId (initProcState bills0) p1) p2 := rfl
  rw [eall, e1, e2]
  simp [mkTxnRec]

/-- C2, witness: two concrete Netflix charges with different case create one
bill and both link to it. -/
theorem bill_dedup_within_batch_witness :
    (processAll respW "42" 9 (initProcState []) [pW1, pW2]).billReqs =
      [billReqOf "42" pW1] ∧
    (processAll respW "42" 9 (initProcState []) [pW1, pW2]).createdBillsByMerchant =
      [(lowerStr (extractMerchant pW1.description), bW)] ∧
    (processAll respW "42" 9 (initProcState []) [pW1, pW2]).txnData.map
      TxnRec.bill_id = [some bW.id, some bW.id] :=
  bill_dedup_within_batch respW "42" 9 [] pW1 pW2 bW (by decide) (by decide)
    (by decide) (by decide) (by decide) (by decide) (by decide)

/-- C9: when the `createBill` request for a recurring outflow fails, the rest
of the batch is not aborted: processing continues with the later transactions,
the failed request is only recorded (logged), the in-batch map and active
bills are unchanged, and the transaction is still included in the batch with
`bill_id = none`. -/
theorem bill_creation_failure_recovered
    (resp : Nat → BillReq → Option Bill) (userId : String) (importId : Nat)
    (st : ProcState) (p : ParsedTransaction) (rest : List ParsedTransaction)
    (h1 : detectTransactionType p.description p.amount p.bank_category = "recurring")
    (h2 : p.amount < 0)
    (h3 : st.createdBillsByMerchant.lookup (lowerStr (extractMerchant p.description)) = none)
    (h4 : findMatchingBill (extractMerchant p.description) st.activeBills = none)
    (h5 : resp st.billReqs.length (billReqOf userId p) = none) :
    processAll resp userId importId st (p :: rest) =
      processAll resp userId importId
        { st with
          txnData := st.txnData ++
            [mkTxnRec userId importId p (extractMerchant p.description) "recurring" none]
          billReqs := st.billReqs ++ [billReqOf userId p] } rest ∧
    (mkTxnRec userId importId p (extractMerchant p.description) "recurring" none).bill_id =
      none := by
  refine ⟨?_, rfl⟩
  have estep : processAll resp userId importId st (p :: rest) =
      processAll resp userId importId (processOne resp userId importId st p) rest := rfl
  rw [estep, processOne_create_fail resp userId importId st p h1 h2 h3 h4 h5]

/-- A backend whose `createBill` always fails, for the C9 witness. -/
def respFailW : Nat → BillReq → Option Bill := fun _ _ => none

/-- C9, witness: the failing-creation step at the concrete Netflix
transaction, followed by one more transaction that is still processed. -/
theorem bill_creation_failure_recovered_witness :
    processAll respFailW "42" 9 (initProcState []) [pW1, pW2] =
      processAll respFailW "42" 9
        { initProcState [] with
          txnData := [mkTxnRec "42" 9 pW1 (extractMerchant pW1.description)
            "recurring" none]
          billReqs := [billReqOf "42" pW1] } [pW2] ∧
    (mkTxnRec "42" 9 pW1 (extractMerchant pW1.description) "recurring" none).bill_id =
      none :=
  bill_creation_failure_recovered respFailW "42" 9 (initProcState []) pW1 [pW2]
    (by decide) (by decide) (by decide) (by decide) (by decide)

/-- C10: when the CSV text parses to no transactions at all, the upload fails
with the error message "No valid transactions found in CSV" and no backend
write request is issued: no import record, raw rows, bills, or processed
transactions. -/
theorem empty_parse_fails_before_writes
    (be : BackendModel) (userId fileText fileName accountType : String)
    (h : parseCSV fileText = []) :
    handleFileUpload be userId fileText fileName accountType =
      { err := some "No valid transactions found in CSV", writes := [] } := by
  unfold handleFileUpload
  rw [h]
  rfl

/-- A trivial backend for the C10 witness. -/
def beW : BackendModel :=
  ⟨fun _ => .ok 1, fun _ => .ok (), [], fun _ _ => none, fun _ => .ok ()⟩

/-- C10, witness: the empty file parses to nothing and the upload fails with
the fixed message and an empty write list. -/
theorem empty_parse_fails_before_writes_witness :
    parseCSV "" = [] ∧
    handleFileUpload beW "42" "" "f.csv" "checking" =
      { err := some "No valid transactions found in CSV", writes := [] } :=
  ⟨by decide, empty_parse_fails_before_writes beW "42" "" "f.csv" "checking" (by decide)⟩

end Preview
